import Mathlib

/-!
Shallow embedding of `src/scraping.py` (CollegesSpider).

This file embeds the crawl-orchestration logic of the Scrapy spider
`CollegesSpider` in `src/scraping.py` and proves properties of it.

Modelling conventions:
* Fetched documents are modelled as structures carrying the results of the
  CSS/XPath selector queries the code performs on them (the site-specific
  selector engine is the external "Extractor" collaborator of the spec).
* Python `None`-able selector results are `Option String`; Python truthiness
  of a string (`if s:`) is `!s.isEmpty` on the `some` case.
* Python dicts whose keys are managed dynamically by the code
  (`college_data["tabs"]`, `college_data["tabs_pending"]`, popped at
  emission time) are modelled as `Option`-valued fields: `none` means the
  key is absent.  Other dicts are association lists with first-key-wins
  lookup and replace-or-append update, matching Python dict semantics.
* Fallible Python operations (sequence unpacking, missing dict keys,
  missing attributes) are modelled in `Except String`, the error string
  naming the exception class the interpreter would raise.
* Callbacks in the source are generator functions: the Scrapy engine only
  consumes the values they `yield`; a `return expr` inside a generator
  raises `StopIteration(expr)` and the engine never sees `expr`.  Handlers
  are therefore modelled as returning both the list of yielded objects and
  (for `parse`) the separate generator-return slot, which the engine
  discards.
-/

namespace Scraping

/-- Python collection values for `self.failed_pages`: the code creates it
with `set()` (line 39) but `handle_error` (line 539) calls `.append` on it.
Method dispatch on the runtime type is modelled here: `set` objects have an
`add` method and no `append` method; `list` objects the reverse. -/
inductive PyCollection (α : Type) where
  | set (elems : List α)
  | list (elems : List α)
deriving DecidableEq

/-- Python `set.add` / dispatch failure `list.add` (AttributeError). -/
def PyCollection.add {α : Type} [DecidableEq α] :
    PyCollection α → α → Except String (PyCollection α)
  | .set s, x => .ok (.set (if s.contains x then s else s ++ [x]))
  | .list _, _ => .error "AttributeError: list object has no attribute add"

/-- Python `list.append` / dispatch failure `set.append` (AttributeError).
`set` objects do not have an `append` method. -/
def PyCollection.append {α : Type} :
    PyCollection α → α → Except String (PyCollection α)
  | .list l, x => .ok (.list (l ++ [x]))
  | .set _, _ => .error "AttributeError: set object has no attribute append"

/-!
Python string primitives.  The corresponding Lean core functions
(`String.trim`, `String.splitOn`, `String.replace`, `String.toLower`) are
defined by position-based well-founded recursion and do not reduce inside
the kernel, so the Python operations are embedded structurally over the
character list of the string.
-/

/-- Python `str.strip()`: drop leading and trailing whitespace. -/
def pyStrip (s : String) : String :=
  ⟨(((s.data.dropWhile Char.isWhitespace).reverse).dropWhile
    Char.isWhitespace).reverse⟩

/-- Python falsiness of a string: empty. -/
def pyEmpty (s : String) : Bool := s.data.isEmpty

/-- ASCII lower-casing of one character (Python `str.lower()` on the ASCII
text this site produces). -/
def pyLowerChar (c : Char) : Char :=
  if 65 ≤ c.toNat ∧ c.toNat ≤ 90 then Char.ofNat (c.toNat + 32) else c

/-- Python `str.lower()`. -/
def pyLower (s : String) : String := ⟨s.data.map pyLowerChar⟩

/-- Is the first list an initial segment of the second? -/
def listIsInit : List Char → List Char → Bool
  | [], _ => true
  | _ :: _, [] => false
  | p :: ps, c :: cs => p = c && listIsInit ps cs

/-- Left-to-right scan for Python `str.split(sep)` with a nonempty
separator; the fuel argument (instantiated with the text length) only
makes the recursion structural. -/
def pySplitAux (sep : List Char) : Nat → List Char → List Char → List (List Char)
  | 0, cur, rest => [cur.reverse ++ rest]
  | _ + 1, cur, [] => [cur.reverse]
  | fuel + 1, cur, c :: cs =>
      if listIsInit sep (c :: cs) then
        cur.reverse :: pySplitAux sep fuel [] (List.drop sep.length (c :: cs))
      else
        pySplitAux sep fuel (c :: cur) cs

/-- Python `s.split(sep)` for a nonempty separator. -/
def pySplit (s sep : String) : List String :=
  (pySplitAux sep.data s.data.length [] s.data).map (fun cs => ⟨cs⟩)

/-- Left-to-right scan for Python `str.replace` with a nonempty needle. -/
def pyReplaceAux (sub repl : List Char) : Nat → List Char → List Char
  | 0, l => l
  | _ + 1, [] => []
  | fuel + 1, c :: cs =>
      if listIsInit sub (c :: cs) then
        repl ++ pyReplaceAux sub repl fuel (List.drop sub.length (c :: cs))
      else
        c :: pyReplaceAux sub repl fuel cs

/-- Python `s.replace(sub, repl)` for a nonempty needle. -/
def pyReplace (s sub repl : String) : String :=
  ⟨pyReplaceAux sub.data repl.data s.data.length s.data⟩

/-- Python `sub in s` for a nonempty needle `sub`: true iff splitting on the
needle produces at least two parts. -/
def pyIn (sub s : String) : Bool := 2 ≤ (pySplit s sub).length

/-- Association-list lookup, first occurrence wins (Python `d[k]` /
`k in d`). -/
def dictLookup {α : Type} (k : String) : List (String × α) → Option α
  | [] => Option.none
  | (k1, v) :: rest => if k1 = k then some v else dictLookup k rest

/-- Association-list update (Python `d[k] = v`): replace the binding of an
existing key in place, otherwise append the new binding. -/
def dictSet {α : Type} : List (String × α) → String → α → List (String × α)
  | [], k, v => [(k, v)]
  | (k1, v1) :: rest, k, v =>
      if k1 = k then (k, v) :: rest else (k1, v1) :: dictSet rest k v

/-- Values stored in the per-college data dict.  Only as much structure as
the orchestration code inspects; nested extractor output (overview sections,
highlight tables, ...) is carried opaquely. -/
inductive PyVal where
  | pstr (s : String)
  | pint (n : Int)
  | plist (l : List PyVal)
  | pnone

/-- The `None`-or-string to dict-value coercion used when storing optional
extraction results. -/
def optStr : Option String → PyVal
  | some s => PyVal.pstr s
  | Option.none => PyVal.pnone

/-! ## Listing-page data model -/

/-- One `li` of `div.collegeinfo ul.info` as the ownership loop
(lines 156-162) sees it: its `img::attr(src)` result and its `::text`
results. -/
structure InfoLi where
  img_src : Option String
  texts : List String
deriving DecidableEq

/-- The exam `li` selection (lines 191-211): present iff the selector list
is nonempty, carrying the two follow-up query results. -/
structure ExamLi where
  main_exam : Option String
  tooltip_exams_text : Option String
deriving DecidableEq

/-- One college block of a listing page: the selector-query results
`extract_college_data` (lines 135-236) and the link extraction (line 114)
perform on it. -/
structure Block where
  title_text : Option String
  location_info : Option String
  info_lis : List InfoLi
  ranking_text : Option String
  rank_publisher : Option String
  fees_text : Option String
  accreditation_text : Option String
  avg_package_text : Option String
  exam_li : Option ExamLi
  description_text : Option String
  link : Option String
deriving DecidableEq

/-- A fetched listing page as `parse` and `is_valid_page` see it:
`meta["page"]`, the page url, the two structural marker queries, the body
length, and the `div.collegeCardBox.col-md-12` block selection. -/
structure ListingResponse where
  page : Nat
  url : String
  hasCollegeBlocks : Bool
  hasContainer : Bool
  bodyLen : Nat
  blocks : List Block

/-! ## Spider state (`__init__`, lines 34-58) -/

/-- The progress dict (`load_progress`, lines 311-321): three identifier
sets. -/
structure Progress where
  completed_pages : List Nat
  completed_colleges : List String
  failed_colleges : List String

/-- The mutable spider attributes the verified handlers read or write:
`self.page_attempts` (a `defaultdict(int)`), `self.failed_pages`
(created as `set()`), `self.stats["colleges_found"]`, and `self.progress`.
The remaining counters of `__init__` are write-only bookkeeping for the
shutdown report and are not referenced by the claims. -/
structure SpiderState where
  page_attempts : Nat → Nat
  failed_pages : PyCollection (Option Nat)
  stats_colleges_found : Nat
  progress : Progress

/-- Method `load_progress` (lines 311-321): the progress file is named
`scraping_progress_<start timestamp>.json`; when it exists its JSON content
is loaded, on `FileNotFoundError` the three sets start empty.  The optional
argument stands for the answer of the file system. -/
def load_progress (file : Option Progress) : Progress :=
  match file with
  | some p => p
  | Option.none =>
      { completed_pages := [], completed_colleges := [], failed_colleges := [] }

/-- Constructor `__init__` (lines 34-58): zeroed counters, `failed_pages = set()`,
progress restored by `load_progress`. -/
def initState (file : Option Progress) : SpiderState :=
  { page_attempts := fun _ => 0
    failed_pages := PyCollection.set []
    stats_colleges_found := 0
    progress := load_progress file }

/-! ## extract_college_data (lines 135-236) -/

/-- Method `safe_extract` (lines 427-429) and the inline
`x.strip() if x else None` pattern: `None` and the empty string give
`None`, otherwise the stripped string. -/
def safe_extract : Option String → Option String
  | some s => if pyEmpty s then Option.none else some (pyStrip s)
  | Option.none => Option.none

/-- Lines 146-151: `city, state = None, None`; if `location_info` is truthy
and contains `", "` it is unpacked via `split(", ")` into exactly two parts
(raising `ValueError` on more), otherwise it becomes the city alone. -/
def cityState : Option String → Except String (Option String × Option String)
  | Option.none => .ok (Option.none, Option.none)
  | some loc =>
      if pyEmpty loc then .ok (Option.none, Option.none)
      else if pyIn ", " loc then
        match pySplit loc ", " with
        | [a, b] => .ok (some a, some b)
        | _ => .error "ValueError: too many values to unpack"
      else .ok (some loc, Option.none)

/-- The ownership loop (lines 155-162): first `li` whose `img` src contains
the flag marker wins (`break`), its last text stripped, or `None` when it
has no texts. -/
def findOwnership : List InfoLi → Option String
  | [] => Option.none
  | li :: rest =>
      match li.img_src with
      | some src =>
          if pyIn "flag.29bda52542d4.svg" src then
            match li.texts.getLast? with
            | some t => some (pyStrip t)
            | Option.none => Option.none
          else findOwnership rest
      | Option.none => findOwnership rest

/-- The exam extraction (lines 189-213): main exam appended when its strip
is truthy, tooltip text split on `","`, entries stripped and blank entries
dropped, then `list(set(exams))`.  The Python set round-trip deduplicates
in unspecified order; modelled as first-occurrence deduplication. -/
def examsOf : Option ExamLi → List String
  | Option.none => []
  | some el =>
      let exams0 : List String := []
      let exams1 :=
        match safe_extract el.main_exam with
        | some m => if pyEmpty m then exams0 else exams0 ++ [m]
        | Option.none => exams0
      let exams2 :=
        match el.tooltip_exams_text with
        | some t =>
            if pyEmpty t then exams1
            else
              exams1 ++ (((pySplit t ",").map pyStrip).filter
                (fun x => !(pyEmpty x)))
        | Option.none => exams1
      exams2.eraseDups

/-- The `try` body of `extract_college_data` (lines 137-232).  The only
fallible step is the location unpack; every other operation is total. -/
def extract_college_data_inner (c : Block) :
    Except String (List (String × PyVal)) :=
  let title :=
    match c.title_text with
    | some t => if pyEmpty t then "Unknown Title" else pyStrip t
    | Option.none => "Unknown Title"
  match cityState c.location_info with
  | .error e => .error e
  | .ok cs =>
      let ownership := findOwnership c.info_lis
      let ranking :=
        match c.ranking_text with
        | some r =>
            if pyEmpty r then Option.none
            else some (pyStrip (pyReplace r "#" ""))
        | Option.none => Option.none
      let fees := safe_extract c.fees_text
      let accreditation := safe_extract c.accreditation_text
      let avg_package := safe_extract c.avg_package_text
      let exams := examsOf c.exam_li
      let description := safe_extract c.description_text
      .ok [("title", PyVal.pstr title), ("city", optStr cs.1),
           ("state", optStr cs.2), ("ownership", optStr ownership),
           ("ranking", optStr ranking),
           ("rank_publisher", optStr c.rank_publisher),
           ("fees", optStr fees), ("accreditation", optStr accreditation),
           ("avg_package", optStr avg_package),
           ("exams", PyVal.plist (exams.map PyVal.pstr)),
           ("description", optStr description)]

/-- Method `extract_college_data` (lines 135-236): the `try`/`except Exception`
wrapper catches any extraction exception and returns the error-marker
record of line 236 instead. -/
def extract_college_data (c : Block) : List (String × PyVal) :=
  match extract_college_data_inner c with
  | .ok d => d
  | .error e =>
      [("title", PyVal.pstr "Error in extraction"), ("error", PyVal.pstr e)]

/-! ## Page validation and retries -/

/-- Validator `is_valid_page` (lines 493-500): both structural markers present and
`len(response.body) > 1000`. -/
def is_valid_page (r : ListingResponse) : Bool :=
  r.hasCollegeBlocks && r.hasContainer && decide (1000 < r.bodyLen)

/-- A scheduled page request as built by `retry_page` (lines 520-535):
url, `meta["page"]`, `meta["retry_count"]`. -/
structure ScrapyRequest where
  url : String
  page : Nat
  retry_count : Nat
deriving DecidableEq

/-- Method `retry_page` (lines 508-535): increment `self.page_attempts[page]`;
if the new count is at most 3 build a retry request, otherwise fall off the
end of the function (Python returns `None`). -/
def retry_page (st : SpiderState) (page_number : Nat) (url : String) :
    SpiderState × Option ScrapyRequest :=
  let pa := fun p =>
    if p = page_number then st.page_attempts p + 1 else st.page_attempts p
  let st1 := { st with page_attempts := pa }
  let retry_count := pa page_number
  if retry_count ≤ 3 then
    (st1, some { url := url, page := page_number, retry_count := retry_count })
  else
    (st1, Option.none)

/-- Method `handle_invalid_page` (lines 502-506): log and delegate to
`retry_page`. -/
def handle_invalid_page (st : SpiderState) (page_number : Nat)
    (url : String) : SpiderState × Option ScrapyRequest :=
  retry_page st page_number url

/-! ## handle_error (lines 537-553) -/

/-- The request meta fields `handle_error` reads from the failed request. -/
structure ReqMeta where
  page : Option Nat
  retry_count : Option Nat
deriving DecidableEq

/-- A request as carried inside a Scrapy `Failure`. -/
structure PendingRequest where
  url : String
  meta : ReqMeta
deriving DecidableEq

/-- A Twisted `Failure` delivered to an errback. -/
structure Failure where
  request : PendingRequest
  value : String

/-- Errback `handle_error` (lines 537-553): record the page in `self.failed_pages`
via `.append`, then if `meta.get("retry_count", 0) < 3` yield a copy of the
request with the incremented retry count.  `handle_error` is a generator;
an exception raised by its body surfaces when the engine iterates it. -/
def handle_error (st : SpiderState) (failure : Failure) :
    Except String (SpiderState × List PendingRequest) :=
  match st.failed_pages.append failure.request.meta.page with
  | .error e => .error e
  | .ok fp =>
      let st1 := { st with failed_pages := fp }
      let retry_count0 := failure.request.meta.retry_count.getD 0
      if retry_count0 < 3 then
        .ok (st1,
          [{ failure.request with
              meta := { failure.request.meta with
                retry_count := some (retry_count0 + 1) } }])
      else
        .ok (st1, [])

/-! ## parse (lines 80-133) -/

/-- A detail-page request yielded by the listing handler (lines 117-131):
the followed link plus the meta it carries. -/
structure DetailRequest where
  college_link : String
  college_data : List (String × PyVal)
  page_number : Nat
  block_number : Nat

/-- The block loop of `parse` (lines 112-133): for each block (1-based
enumeration) extract its data; follow the link of the block iff the link is
truthy and not in `self.progress["completed_colleges"]` (links already
completed, and blocks with no or empty link, are skipped). -/
def processBlocks (st : SpiderState) (page_number : Nat)
    (blocks : List Block) : List DetailRequest :=
  blocks.enum.foldr
    (fun iv acc =>
      let college_data := extract_college_data iv.2
      match iv.2.link with
      | some l =>
          if !l.isEmpty && !(st.progress.completed_colleges.contains l) then
            { college_link := l, college_data := college_data,
              page_number := page_number, block_number := iv.1 + 1 } :: acc
          else acc
      | Option.none => acc)
    []

/-- Listing handler `parse` (lines 80-133).  The result triple is
(state, yielded detail requests, generator-return slot).  `parse` is a
generator (it contains `yield`), so the requests built by
`return self.handle_invalid_page(...)` (line 84) and
`return self.retry_page(...)` (line 104) land in the third component as
the `StopIteration` value, which the Scrapy engine discards — only the
second component is ever scheduled.  Lines 99-100 add the block count to
`stats["colleges_found"]` before the minimum-block check.  On a block
count below 10 with fewer than 3 recorded attempts the handler stops at
line 104; at 3 or more attempts it records the page in `failed_pages`
(line 106) and falls through to the block loop. -/
def parse (st : SpiderState) (r : ListingResponse) :
    Except String (SpiderState × List DetailRequest × Option ScrapyRequest) :=
  let page_number := r.page
  if !(is_valid_page r) then
    let sr := handle_invalid_page st page_number r.url
    .ok (sr.1, [], sr.2)
  else
    let block_count := r.blocks.length
    let st1 := { st with
      stats_colleges_found := st.stats_colleges_found + block_count }
    if block_count < 10 then
      if st1.page_attempts page_number < 3 then
        let sr := retry_page st1 page_number r.url
        .ok (sr.1, [], sr.2)
      else
        match st1.failed_pages.add (some page_number) with
        | .error e => .error e
        | .ok fp =>
            let st2 := { st1 with failed_pages := fp }
            .ok (st2, processBlocks st2 page_number r.blocks, Option.none)
    else
      .ok (st1, processBlocks st1 page_number r.blocks, Option.none)

/-! ## Detail pages and tab fan-out (lines 238-309) -/

/-- One entry of the sub-navigation selection
`.container.mobileContainerNone ul li a` (line 251): its `::text` and
`::attr(href)` query results. -/
structure NavTab where
  text : Option String
  href : Option String
deriving DecidableEq

/-- A fetched detail page as `parse_college_page` sees it.  The
section-level extractor results (`extract_overview_tab`,
`extract_highlights`, `extract_courses`, `extract_faqs`, lines 242-247) are
site-specific Extractor output and are carried opaquely. -/
structure DetailResponse where
  overviewTab : PyVal
  facilities : PyVal
  highlights : PyVal
  courses : PyVal
  faqs : PyVal
  nav_tabs : List NavTab

/-- One `.block.box` of a tab page (lines 290-293): its `h2::text` result
and the raw `.get()` of the content selector. -/
structure TabBlock where
  h2_text : Option String
  content_html : Option String
deriving DecidableEq

/-- A fetched tab page as `parse_tab_content` sees it. -/
structure TabResponse where
  blocks : List TabBlock
deriving DecidableEq

/-- The per-tab dict `{"tab": ..., "content": [...]}` (line 287); content
entries are `{"title": ..., "content": ...}` pairs. -/
structure TabData where
  tab : String
  content : List (String × String)
deriving DecidableEq

/-- The shared per-college record: the dict created by
`extract_college_data`, enriched by `parse_college_page` and then mutated
in place by every `parse_tab_content` callback that carries it in its meta.
`base` holds the listing fields plus the detail-section entries; the
dynamically managed keys `"tabs"` and `"tabs_pending"` are tracked
separately, `none` meaning the key is absent from the dict. -/
structure CollegeData where
  base : List (String × PyVal)
  tabs : Option (List (String × TabData))
  tabs_pending : Option Int

/-- A tab request yielded at lines 267-275.  It carries no errback: a
permanently failed tab fetch runs no spider code at all. -/
structure TabRequest where
  tab_url : String
  tab_title : String
deriving DecidableEq

/-- Key derivation of line 284: the tab title with spaces removed,
lower-cased, with the text Tab appended. -/
def tabKey (tab_title : String) : String :=
  pyLower (pyReplace tab_title " " "") ++ "Tab"

/-- Line 255 / line 262: `tab.css("::text").get().strip()` — raises
`AttributeError` when the text query returns `None`. -/
def stripNavText (t : NavTab) : Except String String :=
  match t.text with
  | some s => .ok (pyStrip s)
  | Option.none => .error "AttributeError: NoneType object has no attribute strip"

/-- The list comprehension of lines 252-257: evaluate the stripped text of
every nav tab in order (the first failure aborts the whole handler). -/
def navTexts : List NavTab → Except String (List (NavTab × String))
  | [] => .ok []
  | t :: ts =>
      match stripNavText t with
      | .error e => .error e
      | .ok s =>
          match navTexts ts with
          | .error e => .error e
          | .ok rest => .ok ((t, s) :: rest)

/-- The tab loop of lines 261-275: one request per tab to fetch;
`response.follow` raises when the href query returned `None`. -/
def tabReqs : List (NavTab × String) → Except String (List TabRequest)
  | [] => .ok []
  | ts :: rest =>
      match ts.1.href with
      | some u =>
          match tabReqs rest with
          | .error e => .error e
          | .ok reqs => .ok ({ tab_url := u, tab_title := ts.2 } :: reqs)
      | Option.none => .error "ValueError: url can not be None"

/-- The detail-section entries added at lines 242-247. -/
def detailEntries (resp : DetailResponse) : List (String × PyVal) :=
  [("overviewTab", resp.overviewTab), ("facilities", resp.facilities),
   ("highlights", resp.highlights), ("courses", resp.courses),
   ("faqs", resp.faqs)]

/-- Detail handler `parse_college_page` (lines 238-279): enrich the meta record with the
detail sections, set `tabs = {}`, filter the nav tabs
(Gallery/Reviews/News/QnA excluded), set `tabs_pending` to the number of
tabs to fetch, yield one request per tab, and yield the record immediately
iff `tabs_pending == 0`.  Result triple: (the shared record, yielded tab
requests, yielded records).  A mid-loop exception is collapsed to the
error outcome (requests yielded before it are not represented; no claim
depends on that path). -/
def parse_college_page (meta_cd : List (String × PyVal))
    (resp : DetailResponse) :
    Except String (CollegeData × List TabRequest × List CollegeData) :=
  match navTexts resp.nav_tabs with
  | .error e => .error e
  | .ok stripped =>
      let tabs_to_fetch := stripped.filter
        (fun ts => !(["Gallery", "Reviews", "News", "QnA"].contains ts.2))
      let cd : CollegeData :=
        { base := meta_cd ++ detailEntries resp
          tabs := some []
          tabs_pending := some (tabs_to_fetch.length : Int) }
      match tabReqs tabs_to_fetch with
      | .error e => .error e
      | .ok reqs =>
          if cd.tabs_pending = some 0 then .ok (cd, reqs, [cd])
          else .ok (cd, reqs, [])

/-- The content loop of lines 290-300 building `tab_data["content"]`:
append `{title, content}` when both are truthy and the title is not
already present. -/
def buildTabContent (blocks : List TabBlock) : List (String × String) :=
  blocks.foldl
    (fun acc b =>
      match safe_extract b.h2_text, b.content_html with
      | some t, some c =>
          if !(pyEmpty t) && !(pyEmpty c) && !(acc.any (fun item => item.1 = t))
          then acc ++ [(t, c)] else acc
      | _, _ => acc)
    []

/-- The tab dict built at lines 284-300. -/
def mkTabData (tab_title : String) (resp : TabResponse) : TabData :=
  { tab := tab_title, content := buildTabContent resp.blocks }

/-- Tab handler `parse_tab_content` (lines 281-309): store the tab dict under its key
(KeyError when the `"tabs"` key is gone), decrement `tabs_pending`
(KeyError when already popped), and at zero pop the counter and yield the
record.  Result: (the shared record after mutation, yielded records). -/
def parse_tab_content (cd : CollegeData) (tab_title : String)
    (resp : TabResponse) : Except String (CollegeData × List CollegeData) :=
  match cd.tabs with
  | Option.none => .error "KeyError: tabs"
  | some tabs =>
      let cd1 := { cd with
        tabs := some (dictSet tabs (tabKey tab_title) (mkTabData tab_title resp)) }
      match cd1.tabs_pending with
      | Option.none => .error "KeyError: tabs_pending"
      | some p =>
          let cd2 := { cd1 with tabs_pending := some (p - 1) }
          if p - 1 = 0 then
            let emitted := { cd2 with tabs_pending := Option.none }
            .ok (emitted, [emitted])
          else
            .ok (cd2, [])

/-- Engine-level outcome of one yielded tab request: either its response
arrives and `parse_tab_content` runs once for it, or the fetch permanently
fails — the request was yielded with no errback (lines 267-275), so no
spider code runs for it. -/
inductive TabOutcome where
  | success (resp : TabResponse)
  | giveUp
deriving DecidableEq

/-- Sequential processing of tab outcomes against the shared record.
Scrapy callbacks run one at a time on the reactor thread, so the
concurrent tab arrivals of one item are serialized; the list order is the
arrival order. -/
def runTabs : CollegeData → List (TabRequest × TabOutcome) →
    Except String (CollegeData × List CollegeData)
  | cd, [] => .ok (cd, [])
  | cd, (_, TabOutcome.giveUp) :: rest => runTabs cd rest
  | cd, (req, TabOutcome.success resp) :: rest =>
      match parse_tab_content cd req.tab_title resp with
      | .error e => .error e
      | .ok (cd1, em) =>
          match runTabs cd1 rest with
          | .error e => .error e
          | .ok (cd2, ems) => .ok (cd2, em ++ ems)

/-- The arrivals that actually ran `parse_tab_content`. -/
def successes : List (TabRequest × TabOutcome) →
    List (TabRequest × TabResponse)
  | [] => []
  | (r, TabOutcome.success resp) :: rest => (r, resp) :: successes rest
  | (_, TabOutcome.giveUp) :: rest => successes rest

/-- Effect of one successful arrival on the `"tabs"` dict (line 303). -/
def applyTab (tb : List (String × TabData)) :
    TabRequest × TabResponse → List (String × TabData)
  | (req, resp) => dictSet tb (tabKey req.tab_title) (mkTabData req.tab_title resp)

/-- The `"tabs"` dict after a sequence of successful arrivals. -/
def applyTabs (tb : List (String × TabData))
    (l : List (TabRequest × TabResponse)) : List (String × TabData) :=
  l.foldl applyTab tb

/-- The record emitted once every pending tab of `cd` has arrived
successfully, given arrival list `arr`. -/
def emittedOf (cd : CollegeData) (arr : List (TabRequest × TabOutcome)) :
    CollegeData :=
  { base := cd.base, tabs := some (applyTabs [] (successes arr)),
    tabs_pending := Option.none }

/-- Python `==` on the `"tabs"` dict: same value at every key
(dict equality ignores insertion order). -/
def DictEqT (d1 d2 : List (String × TabData)) : Prop :=
  ∀ k, dictLookup k d1 = dictLookup k d2

/-- Python `==` on two college records: equal base entries, equal pending
key, and tab dicts equal as dicts. -/
def RecordEq (c1 c2 : CollegeData) : Prop :=
  c1.base = c2.base ∧ c1.tabs_pending = c2.tabs_pending ∧
    match c1.tabs, c2.tabs with
    | some t1, some t2 => DictEqT t1 t2
    | Option.none, Option.none => True
    | _, _ => False

/-! ## Concrete fixtures -/

/-- A listing block whose selector queries all came back empty except the
detail link. -/
def mkBlock (l : Option String) : Block :=
  { title_text := Option.none, location_info := Option.none, info_lis := [],
    ranking_text := Option.none, rank_publisher := Option.none,
    fees_text := Option.none, accreditation_text := Option.none,
    avg_package_text := Option.none, exam_li := Option.none,
    description_text := Option.none, link := l }

/-- State component of a `parse` run (with a fallback for the error case). -/
def parseSt
    (x : Except String (SpiderState × List DetailRequest × Option ScrapyRequest))
    (dflt : SpiderState) : SpiderState :=
  match x with
  | .ok s => s.1
  | .error _ => dflt

/-- Yielded detail requests of a `parse` run. -/
def parseYields
    (x : Except String (SpiderState × List DetailRequest × Option ScrapyRequest)) :
    List DetailRequest :=
  match x with
  | .ok s => s.2.1
  | .error _ => []

/-- Generator-return slot of a `parse` run. -/
def parseRet
    (x : Except String (SpiderState × List DetailRequest × Option ScrapyRequest)) :
    Option ScrapyRequest :=
  match x with
  | .ok s => s.2.2
  | .error _ => Option.none

/-- A block whose location text `"a, b, c"` makes the unpack at line 149
raise `ValueError` inside the `try` block. -/
def c10_bad : Block :=
  { mkBlock (some "/college-x") with
      title_text := some "Test College", location_info := some "a, b, c" }

/-- A transport failure for page 3, as delivered to the errback. -/
def c9_failure : Failure :=
  { request :=
      { url := "https://www.collegedekho.com/medical/colleges-in-india/?page=3"
        meta := { page := some 3, retry_count := Option.none } }
    value := "twisted.internet.error.TimeoutError" }

/-- A spider state in which page 5 has exhausted its three attempts. -/
def c6_state : SpiderState :=
  { page_attempts := fun _ => 3
    failed_pages := PyCollection.set [some 5]
    stats_colleges_found := 40
    progress := load_progress Option.none }

/-- A transport failure for page 5 whose retry count has reached the cap. -/
def c6_failure : Failure :=
  { request :=
      { url := "https://www.collegedekho.com/medical/colleges-in-india/?page=5"
        meta := { page := some 5, retry_count := some 3 } }
    value := "twisted.internet.error.ConnectionLost" }

/-- A listing response for page 7 with valid markers and the given detail
links. -/
def c4_resp (links : List String) : ListingResponse :=
  { page := 7
    url := "https://www.collegedekho.com/medical/colleges-in-india/?page=7"
    hasCollegeBlocks := true, hasContainer := true, bodyLen := 52000
    blocks := links.map (fun l => mkBlock (some l)) }

def c4_links4 : List String := ["/c1", "/c2", "/c3", "/c4"]

def c4_links12 : List String :=
  ["/c1", "/c2", "/c3", "/c4", "/c5", "/c6", "/c7", "/c8", "/c9", "/c10",
   "/c11", "/c12"]

def c4_run1 : Except String (SpiderState × List DetailRequest × Option ScrapyRequest) :=
  parse (initState Option.none) (c4_resp c4_links4)

def c4_s1 : SpiderState := parseSt c4_run1 (initState Option.none)

def c4_run2 : Except String (SpiderState × List DetailRequest × Option ScrapyRequest) :=
  parse c4_s1 (c4_resp c4_links4)

def c4_s2 : SpiderState := parseSt c4_run2 (initState Option.none)

def c4_run3 : Except String (SpiderState × List DetailRequest × Option ScrapyRequest) :=
  parse c4_s2 (c4_resp c4_links12)

def c4_s3 : SpiderState := parseSt c4_run3 (initState Option.none)

def c4_yields3 : List DetailRequest := parseYields c4_run3

/-- A restored progress file in which college `/c1` is already completed. -/
def c3_file : Progress :=
  { completed_pages := [1], completed_colleges := ["/c1"],
    failed_colleges := [] }

/-- A valid listing page carrying `/c1` (already completed) among ten
blocks. -/
def c3_resp : ListingResponse :=
  { page := 2
    url := "https://www.collegedekho.com/medical/colleges-in-india/?page=2"
    hasCollegeBlocks := true, hasContainer := true, bodyLen := 48000
    blocks := (["/c1", "/c2", "/c3", "/c4", "/c5", "/c6", "/c7", "/c8",
      "/c9", "/c10"]).map (fun l => mkBlock (some l)) }

def c3_out : Except String (SpiderState × List DetailRequest × Option ScrapyRequest) :=
  parse (initState (some c3_file)) c3_resp

def c3_st : SpiderState := parseSt c3_out (initState (some c3_file))

def c3_yields : List DetailRequest := parseYields c3_out

def c3_ret : Option ScrapyRequest := parseRet c3_out

def c1_meta : List (String × PyVal) :=
  [("title", PyVal.pstr "Example Medical College")]

/-- A detail page yielding exactly one tab request. -/
def c1_detail : DetailResponse :=
  { overviewTab := PyVal.plist [], facilities := PyVal.plist [],
    highlights := PyVal.plist [], courses := PyVal.plist [],
    faqs := PyVal.plist []
    nav_tabs := [{ text := some "Scholarship", href := some "/example/scholarship" }] }

def c1_req : TabRequest :=
  { tab_url := "/example/scholarship", tab_title := "Scholarship" }

def c1_cd : CollegeData :=
  { base := c1_meta ++ detailEntries c1_detail, tabs := some [],
    tabs_pending := some 1 }

def c8_meta : List (String × PyVal) :=
  [("title", PyVal.pstr "No Tabs College")]

/-- A detail page whose only nav tab is Gallery, which the handler
filters out: zero tabs to fetch. -/
def c8_detail : DetailResponse :=
  { overviewTab := PyVal.plist [], facilities := PyVal.plist [],
    highlights := PyVal.plist [], courses := PyVal.plist [],
    faqs := PyVal.plist []
    nav_tabs := [{ text := some "Gallery", href := some "/example/gallery" }] }

def c8_cd : CollegeData :=
  { base := c8_meta ++ detailEntries c8_detail, tabs := some [],
    tabs_pending := some 0 }

def c2_meta : List (String × PyVal) :=
  [("title", PyVal.pstr "One Tab College")]

/-- A detail page with one fetchable tab plus a filtered Gallery tab. -/
def c2_resp : DetailResponse :=
  { overviewTab := PyVal.plist [], facilities := PyVal.plist [],
    highlights := PyVal.plist [], courses := PyVal.plist [],
    faqs := PyVal.plist []
    nav_tabs := [{ text := some "Courses and Fees", href := some "/cf" },
                 { text := some "Gallery", href := some "/gallery" }] }

def c2_req : TabRequest := { tab_url := "/cf", tab_title := "Courses and Fees" }

def c2_cd : CollegeData :=
  { base := c2_meta ++ detailEntries c2_resp, tabs := some [],
    tabs_pending := some 1 }

def c2_tabresp : TabResponse :=
  { blocks := [{ h2_text := some "Fees", content_html := some "<div>100</div>" }] }

def c2_arr : List (TabRequest × TabOutcome) :=
  [(c2_req, TabOutcome.success c2_tabresp)]

def c7_meta : List (String × PyVal) :=
  [("title", PyVal.pstr "Three Tab College")]

/-- A detail page yielding exactly three tab requests. -/
def c7_resp : DetailResponse :=
  { overviewTab := PyVal.plist [], facilities := PyVal.plist [],
    highlights := PyVal.plist [], courses := PyVal.plist [],
    faqs := PyVal.plist []
    nav_tabs := [{ text := some "Admission", href := some "/adm" },
                 { text := some "Placement", href := some "/plc" },
                 { text := some "Cutoff", href := some "/cut" }] }

def c7_r1 : TabRequest := { tab_url := "/adm", tab_title := "Admission" }

def c7_r2 : TabRequest := { tab_url := "/plc", tab_title := "Placement" }

def c7_r3 : TabRequest := { tab_url := "/cut", tab_title := "Cutoff" }

def c7_cd : CollegeData :=
  { base := c7_meta ++ detailEntries c7_resp, tabs := some [],
    tabs_pending := some 3 }

def c7_t1 : TabResponse :=
  { blocks := [{ h2_text := some "A", content_html := some "<p>a</p>" }] }

def c7_t2 : TabResponse :=
  { blocks := [{ h2_text := some "B", content_html := some "<p>b</p>" }] }

def c7_t3 : TabResponse :=
  { blocks := [{ h2_text := some "C", content_html := some "<p>c</p>" }] }

/-- The three tab responses arriving in a non-discovery order. -/
def c7_arr : List (TabRequest × TabOutcome) :=
  [(c7_r2, TabOutcome.success c7_t2), (c7_r3, TabOutcome.success c7_t3),
   (c7_r1, TabOutcome.success c7_t1)]

/-! ## Dictionary lemmas -/

theorem dictLookup_dictSet_self {α : Type} (d : List (String × α))
    (k : String) (v : α) : dictLookup k (dictSet d k v) = some v := by
  induction d with
  | nil => simp [dictSet, dictLookup]
  | cons kv rest ih =>
      obtain ⟨k1, v1⟩ := kv
      by_cases h : k1 = k
      · simp [dictSet, h, dictLookup]
      · simp [dictSet, h, dictLookup, ih]

theorem dictLookup_dictSet_ne {α : Type} (d : List (String × α))
    (k k2 : String) (v : α) (h : ¬k = k2) :
    dictLookup k2 (dictSet d k v) = dictLookup k2 d := by
  induction d with
  | nil => simp [dictSet, dictLookup, h]
  | cons kv rest ih =>
      obtain ⟨k1, v1⟩ := kv
      by_cases h1 : k1 = k
      · subst h1; simp [dictSet, dictLookup, h]
      · simp [dictSet, h1, dictLookup, ih]

theorem dictEqT_refl (d : List (String × TabData)) : DictEqT d d :=
  fun _ => rfl

theorem dictEqT_trans {d1 d2 d3 : List (String × TabData)}
    (h1 : DictEqT d1 d2) (h2 : DictEqT d2 d3) : DictEqT d1 d3 :=
  fun k => (h1 k).trans (h2 k)

theorem dictSet_congr {d1 d2 : List (String × TabData)} (h : DictEqT d1 d2)
    (k : String) (v : TabData) : DictEqT (dictSet d1 k v) (dictSet d2 k v) := by
  intro k2
  by_cases hk : k = k2
  · subst hk; rw [dictLookup_dictSet_self, dictLookup_dictSet_self]
  · rw [dictLookup_dictSet_ne _ _ _ _ hk, dictLookup_dictSet_ne _ _ _ _ hk]
    exact h k2

theorem dictSet_comm (d : List (String × TabData)) (k1 : String)
    (v1 : TabData) (k2 : String) (v2 : TabData) (h : ¬k1 = k2) :
    DictEqT (dictSet (dictSet d k1 v1) k2 v2)
      (dictSet (dictSet d k2 v2) k1 v1) := by
  intro k
  by_cases e2 : k2 = k
  · subst e2
    rw [dictLookup_dictSet_self, dictLookup_dictSet_ne _ _ _ _ h,
      dictLookup_dictSet_self]
  · by_cases e1 : k1 = k
    · subst e1
      rw [dictLookup_dictSet_ne _ _ _ _ e2, dictLookup_dictSet_self,
        dictLookup_dictSet_self]
    · rw [dictLookup_dictSet_ne _ _ _ _ e2, dictLookup_dictSet_ne _ _ _ _ e1,
        dictLookup_dictSet_ne _ _ _ _ e1, dictLookup_dictSet_ne _ _ _ _ e2]

theorem applyTab_congr {d1 d2 : List (String × TabData)} (h : DictEqT d1 d2)
    (x : TabRequest × TabResponse) :
    DictEqT (applyTab d1 x) (applyTab d2 x) :=
  dictSet_congr h _ _

theorem applyTabs_congr (l : List (TabRequest × TabResponse)) :
    ∀ {d1 d2 : List (String × TabData)}, DictEqT d1 d2 →
      DictEqT (applyTabs d1 l) (applyTabs d2 l) := by
  induction l with
  | nil => intro d1 d2 h; exact h
  | cons x rest ih => intro d1 d2 h; exact ih (applyTab_congr h x)

/-- Inserting the same bindings in two different arrival orders produces
the same dict (as a dict), provided the inserted keys are distinct. -/
theorem applyTabs_perm {l1 l2 : List (TabRequest × TabResponse)}
    (h : List.Perm l1 l2) :
    ∀ d : List (String × TabData),
      (l1.map (fun x => tabKey x.1.tab_title)).Nodup →
      DictEqT (applyTabs d l1) (applyTabs d l2) := by
  induction h with
  | nil => intro d _; exact dictEqT_refl _
  | cons x h ih =>
      intro d hn
      simp only [List.map_cons, List.nodup_cons] at hn
      exact ih (applyTab d x) hn.2
  | swap x y l =>
      intro d hn
      simp only [List.map_cons, List.nodup_cons, List.mem_cons] at hn
      have hxy : ¬tabKey y.1.tab_title = tabKey x.1.tab_title := by
        intro e; exact hn.1 (Or.inl e)
      exact applyTabs_congr l (dictSet_comm d _ _ _ _ hxy)
  | trans h1 h2 ih1 ih2 =>
      intro d hn
      have hn2 := (h1.map (fun x => tabKey x.1.tab_title)).nodup hn
      exact dictEqT_trans (ih1 d hn) (ih2 d hn2)

/-! ## Barrier bookkeeping lemmas -/

theorem successes_length_le (l : List (TabRequest × TabOutcome)) :
    (successes l).length ≤ l.length := by
  induction l with
  | nil => simp [successes]
  | cons x rest ih =>
      obtain ⟨r, o⟩ := x
      cases o <;> simp [successes] <;> omega

theorem successes_append (l1 l2 : List (TabRequest × TabOutcome)) :
    successes (l1 ++ l2) = successes l1 ++ successes l2 := by
  induction l1 with
  | nil => rfl
  | cons x rest ih =>
      obtain ⟨r, o⟩ := x
      cases o <;> simp [successes, ih]

theorem successes_eq_filterMap (l : List (TabRequest × TabOutcome)) :
    successes l = l.filterMap (fun x =>
      match x.2 with
      | TabOutcome.success resp => some (x.1, resp)
      | TabOutcome.giveUp => Option.none) := by
  induction l with
  | nil => rfl
  | cons x rest ih =>
      obtain ⟨r, o⟩ := x
      cases o <;> simp [successes, ih]

/-- Arrivals that contain no success leave the record untouched and emit
nothing (a permanently failed tab request runs no code at all). -/
theorem runTabs_zero (l : List (TabRequest × TabOutcome)) :
    ∀ cd : CollegeData, successes l = [] → runTabs cd l = .ok (cd, []) := by
  induction l with
  | nil => intro cd _; rfl
  | cons x rest ih =>
      intro cd h
      obtain ⟨r, o⟩ := x
      cases o with
      | success resp => simp [successes] at h
      | giveUp => exact ih cd (by simpa [successes] using h)

/-- Fewer successful arrivals than the pending count: every arrival lands
in the dict, the counter drops by the number of successes, nothing is
emitted, and no exception occurs. -/
theorem runTabs_lt (l : List (TabRequest × TabOutcome)) :
    ∀ (cd : CollegeData) (tb : List (String × TabData)) (m : Int),
      cd.tabs = some tb → cd.tabs_pending = some m →
      ((successes l).length : Int) < m →
      runTabs cd l =
        .ok ({ base := cd.base, tabs := some (applyTabs tb (successes l)),
               tabs_pending := some (m - (successes l).length) }, []) := by
  induction l with
  | nil =>
      intro cd tb m h1 h2 h3
      obtain ⟨b, t, p⟩ := cd
      simp only at h1 h2
      subst h1; subst h2
      simp [runTabs, applyTabs, successes]
  | cons x rest ih =>
      intro cd tb m h1 h2 h3
      obtain ⟨r, o⟩ := x
      obtain ⟨b, t, p⟩ := cd
      simp only at h1 h2
      subst h1; subst h2
      cases o with
      | giveUp =>
          have := ih ⟨b, some tb, some m⟩ tb m rfl rfl
            (by simpa [successes] using h3)
          simpa [runTabs, successes] using this
      | success resp =>
          have hm : ((successes rest).length : Int) + 1 < m := by
            simp [successes] at h3; omega
          have hne : ¬(m - 1 = 0) := by omega
          have hpt : parse_tab_content ⟨b, some tb, some m⟩ r.tab_title resp =
              Except.ok
                ((⟨b, some (dictSet tb (tabKey r.tab_title)
                    (mkTabData r.tab_title resp)), some (m - 1)⟩ : CollegeData),
                 ([] : List CollegeData)) := by
            simp [parse_tab_content, hne]
          have hr := ih
            ⟨b, some (dictSet tb (tabKey r.tab_title)
              (mkTabData r.tab_title resp)), some (m - 1)⟩
            (dictSet tb (tabKey r.tab_title) (mkTabData r.tab_title resp))
            (m - 1) rfl rfl (by omega)
          have hcast : m -
              ((successes ((r, TabOutcome.success resp) :: rest)).length : Int) =
              m - 1 - ((successes rest).length : Int) := by
            simp [successes]; omega
          simp only [runTabs, hpt, hr, hcast]
          simp [successes, applyTabs, applyTab]

/-- Exactly as many successful arrivals as the pending count: the counter
reaches zero on the last success, the key is popped and the record —
carrying the section of every successful arrival — is emitted exactly once. -/
theorem runTabs_eq1 (l : List (TabRequest × TabOutcome)) :
    ∀ (cd : CollegeData) (tb : List (String × TabData)) (m : Int),
      cd.tabs = some tb → cd.tabs_pending = some m → 0 < m →
      ((successes l).length : Int) = m →
      runTabs cd l =
        .ok ({ base := cd.base, tabs := some (applyTabs tb (successes l)),
               tabs_pending := Option.none },
             [{ base := cd.base, tabs := some (applyTabs tb (successes l)),
                tabs_pending := Option.none }]) := by
  induction l with
  | nil =>
      intro cd tb m h1 h2 h3 h4
      simp [successes] at h4
      omega
  | cons x rest ih =>
      intro cd tb m h1 h2 h3 h4
      obtain ⟨r, o⟩ := x
      obtain ⟨b, t, p⟩ := cd
      simp only at h1 h2
      subst h1; subst h2
      cases o with
      | giveUp =>
          have := ih ⟨b, some tb, some m⟩ tb m rfl rfl h3
            (by simpa [successes] using h4)
          simpa [runTabs, successes] using this
      | success resp =>
          have hm : ((successes rest).length : Int) + 1 = m := by
            simp [successes] at h4; omega
          by_cases h1 : m = 1
          · subst h1
            have hz : successes rest = [] := by
              have h0 : ((successes rest).length : Int) = 0 := by omega
              simpa using h0
            have hpt : parse_tab_content ⟨b, some tb, some 1⟩ r.tab_title resp =
                Except.ok
                  ((⟨b, some (dictSet tb (tabKey r.tab_title)
                      (mkTabData r.tab_title resp)), Option.none⟩ : CollegeData),
                   [(⟨b, some (dictSet tb (tabKey r.tab_title)
                      (mkTabData r.tab_title resp)), Option.none⟩ : CollegeData)]) := by
              simp [parse_tab_content]
            have hrz := runTabs_zero rest
              ⟨b, some (dictSet tb (tabKey r.tab_title)
                (mkTabData r.tab_title resp)), Option.none⟩ hz
            simp only [runTabs, hpt, hrz]
            simp [successes, hz, applyTabs, applyTab]
          · have hne : ¬(m - 1 = 0) := by omega
            have hpt : parse_tab_content ⟨b, some tb, some m⟩ r.tab_title resp =
                Except.ok
                  ((⟨b, some (dictSet tb (tabKey r.tab_title)
                      (mkTabData r.tab_title resp)), some (m - 1)⟩ : CollegeData),
                   ([] : List CollegeData)) := by
              simp [parse_tab_content, hne]
            have hr := ih
              ⟨b, some (dictSet tb (tabKey r.tab_title)
                (mkTabData r.tab_title resp)), some (m - 1)⟩
              (dictSet tb (tabKey r.tab_title) (mkTabData r.tab_title resp))
              (m - 1) rfl rfl (by omega) (by omega)
            simp only [runTabs, hpt, hr]
            simp [successes, applyTabs, applyTab]

/-! ## Handler-shape lemmas -/

theorem tabReqs_length (l : List (NavTab × String)) :
    ∀ reqs, tabReqs l = .ok reqs → reqs.length = l.length := by
  induction l with
  | nil =>
      intro reqs h
      simp only [tabReqs] at h
      cases h
      rfl
  | cons ts rest ih =>
      intro reqs h
      simp only [tabReqs] at h
      cases hh : ts.1.href with
      | none => rw [hh] at h; cases h
      | some u =>
          rw [hh] at h
          cases hr : tabReqs rest with
          | error e => rw [hr] at h; cases h
          | ok rs =>
              rw [hr] at h
              cases h
              simp [ih rs hr]

/-- Shape of a successful `parse_college_page` run: the record holds the
detail entries, an empty tab dict, a pending count equal to the number of
yielded tab requests, and it is emitted immediately iff that count is
zero. -/
theorem parse_college_page_ok (meta_cd : List (String × PyVal))
    (resp : DetailResponse) (cd : CollegeData) (reqs : List TabRequest)
    (em0 : List CollegeData)
    (h : parse_college_page meta_cd resp = .ok (cd, reqs, em0)) :
    cd.base = meta_cd ++ detailEntries resp ∧ cd.tabs = some [] ∧
    cd.tabs_pending = some (reqs.length : Int) ∧
    em0 = (if reqs.length = 0 then [cd] else []) := by
  simp only [parse_college_page] at h
  cases h1 : navTexts resp.nav_tabs with
  | error e => rw [h1] at h; cases h
  | ok stripped =>
      rw [h1] at h
      dsimp only at h
      cases h2 : tabReqs (stripped.filter
          (fun ts => !(["Gallery", "Reviews", "News", "QnA"].contains ts.2))) with
      | error e => rw [h2] at h; cases h
      | ok reqs2 =>
          rw [h2] at h
          dsimp only at h
          have hlen := tabReqs_length _ reqs2 h2
          by_cases hz : (stripped.filter
              (fun ts => !(["Gallery", "Reviews", "News", "QnA"].contains ts.2))).length = 0
          · rw [if_pos (by rw [hz]; simp)] at h
            cases h
            refine ⟨rfl, rfl, ?_, ?_⟩
            · simp [hlen, hz]
            · rw [if_pos (by omega)]
          · rw [if_neg (by simpa using hz)] at h
            cases h
            refine ⟨rfl, rfl, ?_, ?_⟩
            · simp [hlen]
            · rw [if_neg (by omega)]

/-- Every detail request yielded by the block loop has a link outside the
restored completed set. -/
theorem processBlocks_link (st : SpiderState) (page_number : Nat)
    (blocks : List Block) :
    ∀ q ∈ processBlocks st page_number blocks,
      st.progress.completed_colleges.contains q.college_link = false := by
  unfold processBlocks
  generalize blocks.enum = l
  induction l with
  | nil => intro q hq; simp at hq
  | cons iv rest ih =>
      intro q hq
      simp only [List.foldr_cons] at hq
      cases hl : iv.2.link with
      | none => rw [hl] at hq; exact ih q hq
      | some s =>
          rw [hl] at hq
          dsimp only at hq
          by_cases hc :
              (!s.isEmpty && !(st.progress.completed_colleges.contains s)) = true
          · rw [if_pos hc] at hq
            rw [List.mem_cons] at hq
            rcases hq with hq | hq
            · simp only [Bool.and_eq_true, Bool.not_eq_true'] at hc
              rw [hq]
              exact hc.2
            · exact ih q hq
          · rw [if_neg hc] at hq
            exact ih q hq

/-! ## Claims -/

/-- C5: `is_valid_page` classifies a fetched listing document as invalid
exactly when the repeating item-block marker is absent, or the structural
container marker is absent, or the body length is at or below the
1000-byte threshold; in particular a document at or below the threshold is
rejected even when both markers are present. -/
theorem claim_C5 (r : ListingResponse) :
    is_valid_page r = false ↔
      r.hasCollegeBlocks = false ∨ r.hasContainer = false ∨
        r.bodyLen ≤ 1000 := by
  unfold is_valid_page
  cases hb : r.hasCollegeBlocks <;> cases hc : r.hasContainer
  · simp
  · simp
  · simp
  · simp

/-- C9 (code bug): the error handler never runs to completion — its first
statement `self.failed_pages.append(page)` raises `AttributeError`,
because `failed_pages` is created as a `set` (line 39) and `set` objects
have no `append` method.  Evaluated here on a concrete transport failure
against the freshly initialized spider state. -/
theorem claim_C9 :
    handle_error (initState Option.none) c9_failure =
      .error "AttributeError: set object has no attribute append" := rfl

/-- C6 (code bug): `retry_page` never returns a retry request once the
recorded attempt count for the page has reached the cap of 3 (so give-up
is reached after finitely many attempts), but on the transport-failure
path `handle_error` raises `AttributeError` before recording anything, so
exceeding the cap does not record the page into the failed set there. -/
theorem claim_C6 (st : SpiderState) (page_number : Nat) (url : String)
    (failure : Failure) (s : List (Option Nat))
    (hcap : 3 ≤ st.page_attempts page_number)
    (hset : st.failed_pages = PyCollection.set s) :
    (retry_page st page_number url).2 = Option.none ∧
    handle_error st failure =
      .error "AttributeError: set object has no attribute append" := by
  constructor
  · have hgt : ¬(st.page_attempts page_number + 1 ≤ 3) := by omega
    simp [retry_page, hgt]
  · unfold handle_error
    rw [hset]
    rfl

/-- Witness for C6 at a concrete exhausted state. -/
theorem claim_C6_witness :
    (retry_page c6_state 5
      "https://www.collegedekho.com/medical/colleges-in-india/?page=5").2 =
      Option.none ∧
    handle_error c6_state c6_failure =
      .error "AttributeError: set object has no attribute append" :=
  claim_C6 c6_state 5
    "https://www.collegedekho.com/medical/colleges-in-india/?page=5"
    c6_failure [some 5] (by decide) rfl

/-- C10: per-block field extraction is total and always yields a mapping
with a `"title"` key; when the `try` body raises, the error-marker record
is returned instead of propagating the exception. -/
theorem claim_C10 (c : Block) :
    (dictLookup "title" (extract_college_data c)).isSome = true ∧
    ∀ e, extract_college_data_inner c = .error e →
      extract_college_data c =
        [("title", PyVal.pstr "Error in extraction"),
         ("error", PyVal.pstr e)] := by
  constructor
  · unfold extract_college_data extract_college_data_inner
    cases h : cityState c.location_info with
    | error e => simp [dictLookup]
    | ok cs => simp [dictLookup]
  · intro e he
    unfold extract_college_data
    rw [he]

/-- Witness for C10: the location text `"a, b, c"` raises inside the
`try`, and the handler returns the error-marker record. -/
theorem claim_C10_witness :
    extract_college_data c10_bad =
      [("title", PyVal.pstr "Error in extraction"),
       ("error", PyVal.pstr "ValueError: too many values to unpack")] :=
  (claim_C10 c10_bad).2 "ValueError: too many values to unpack" rfl

/-- C1 (code bug): a college whose detail page yields one tab request, and
whose tab fetch permanently fails, keeps `tabs_pending = 1` forever and is
never emitted: the tab requests of lines 267-275 carry no errback, so a
permanent failure decrements nothing and no placeholder section is added.
-/
theorem claim_C1 :
    parse_college_page c1_meta c1_detail = .ok (c1_cd, [c1_req], []) ∧
    runTabs c1_cd [(c1_req, TabOutcome.giveUp)] = .ok (c1_cd, []) ∧
    c1_cd.tabs_pending = some 1 := ⟨rfl, rfl, rfl⟩

/-- C8 counterexample: on a detail page with zero tabs to fetch the record
is emitted immediately, but the emitted record still contains the
bookkeeping key `tabs_pending` (with value 0): the zero-tab path of
lines 277-279 yields without the `pop` that only line 308 performs. -/
theorem claim_C8_counterexample :
    parse_college_page c8_meta c8_detail = .ok (c8_cd, [], [c8_cd]) ∧
    c8_cd.tabs_pending = some 0 := ⟨rfl, rfl⟩

/-- C8 (amended): with zero tabs to fetch the detail handler emits the
record immediately; the emitted record carries the detail-page fields
together with an empty tab dict and the pending-count bookkeeping field
still present with value 0. -/
theorem claim_C8_amended (meta_cd : List (String × PyVal))
    (resp : DetailResponse) (cd : CollegeData) (em0 : List CollegeData)
    (h : parse_college_page meta_cd resp = .ok (cd, [], em0)) :
    em0 = [cd] ∧ cd.base = meta_cd ++ detailEntries resp ∧
    cd.tabs = some [] ∧ cd.tabs_pending = some 0 := by
  obtain ⟨hb, ht, hp, he⟩ := parse_college_page_ok meta_cd resp cd [] em0 h
  exact ⟨by simpa using he, hb, ht, by simpa using hp⟩

/-- Witness for the amended C8 at the concrete zero-tab detail page. -/
theorem claim_C8_witness :
    [c8_cd] = [c8_cd] ∧ c8_cd.base = c8_meta ++ detailEntries c8_detail ∧
    c8_cd.tabs = some [] ∧ c8_cd.tabs_pending = some 0 :=
  claim_C8_amended c8_meta c8_detail c8_cd [c8_cd] rfl

/-- C4 (code bug): the 4-blocks, 4-blocks, 12-blocks scenario.  Each short
attempt yields no detail requests, and the constructed retry request only
ever sits in the generator-return slot (the engine discards it); the third
attempt is accepted and yields 12 requests.  The discovered-item counter
`stats["colleges_found"]` is incremented before the minimum-block check
(line 100), so it ends at 4 + 4 + 12 = 20, not at 12 as the claim
requires. -/
theorem claim_C4 :
    c4_run1 = .ok (c4_s1, [], parseRet c4_run1) ∧
    (parseRet c4_run1).isSome = true ∧
    c4_s1.stats_colleges_found = 4 ∧
    c4_run2 = .ok (c4_s2, [], parseRet c4_run2) ∧
    (parseRet c4_run2).isSome = true ∧
    c4_s2.stats_colleges_found = 8 ∧
    c4_run3 = .ok (c4_s3, c4_yields3, Option.none) ∧
    c4_yields3.length = 12 ∧
    c4_s3.stats_colleges_found = 20 ∧
    ¬c4_s3.stats_colleges_found = 12 :=
  ⟨rfl, rfl, rfl, rfl, rfl, rfl, rfl, rfl, rfl, by decide⟩

/-- C3: with a restored progress ledger whose completed set contains
item X, the listing handler never yields a detail-page request for X:
the link of every yielded request is outside the restored completed set
(line 116), so the detail page of X is never fetched and — emission happening
only in the detail/tab callbacks of a fetched detail page — X is never
re-emitted. -/
theorem claim_C3 (file : Progress) (r : ListingResponse) (X : String)
    (hX : X ∈ file.completed_colleges)
    (st2 : SpiderState) (yields : List DetailRequest)
    (ret : Option ScrapyRequest)
    (hp : parse (initState (some file)) r = .ok (st2, yields, ret)) :
    ∀ q ∈ yields, q.college_link ≠ X := by
  intro q hq hqX
  have hcontains : ∀ st : SpiderState,
      st.progress = load_progress (some file) →
      ∀ p ∈ processBlocks st r.page r.blocks, p.college_link ≠ X := by
    intro st hst p hpmem hpX
    have h1 := processBlocks_link st r.page r.blocks p hpmem
    rw [hpX, hst] at h1
    simp only [load_progress] at h1
    have h2 : file.completed_colleges.elem X = true :=
      List.elem_eq_true_of_mem hX
    rw [show file.completed_colleges.contains X =
          file.completed_colleges.elem X from rfl, h2] at h1
    cases h1
  simp only [parse] at hp
  by_cases hv : is_valid_page r
  · rw [hv] at hp
    simp only [Bool.not_true, Bool.false_eq_true, if_false] at hp
    by_cases hb : r.blocks.length < 10
    · rw [if_pos hb] at hp
      rw [if_pos (by simp [initState])] at hp
      cases hp
      exact absurd hq (by simp)
    · rw [if_neg hb] at hp
      cases hp
      exact hcontains _ rfl q hq hqX
  · rw [Bool.not_eq_true] at hv
    rw [hv] at hp
    simp only [Bool.not_false, if_true] at hp
    cases hp
    exact absurd hq (by simp)

/-- Witness for C3: a run over a concrete ten-block page in which the
completed college `/c1` appears; no yielded request targets it. -/
theorem claim_C3_witness :
    c3_yields.all (fun q => !(q.college_link == "/c1")) = true := by
  have h := claim_C3 c3_file c3_resp "/c1" (by decide) c3_st c3_yields c3_ret rfl
  rw [List.all_eq_true]
  intro q hq
  have hne := h q hq
  simp [hne]

/-- C2: for a record created by a successful detail-page parse, and any
engine schedule that delivers exactly one outcome (response or permanent
failure) per yielded tab request in any order: (a) the record is emitted
at most once over the whole run; (b) at every intermediate point the
pending-tab counter, while present, is never negative; (c) with zero tabs
the record is emitted immediately by the detail handler itself. -/
theorem claim_C2 (meta_cd : List (String × PyVal)) (resp : DetailResponse)
    (cd : CollegeData) (reqs : List TabRequest) (em0 : List CollegeData)
    (hpc : parse_college_page meta_cd resp = .ok (cd, reqs, em0))
    (arr : List (TabRequest × TabOutcome))
    (harr : List.Perm (arr.map Prod.fst) reqs) :
    (∀ cd2 em, runTabs cd arr = .ok (cd2, em) →
      em0.length + em.length ≤ 1) ∧
    (∀ pre post cdp emp, arr = pre ++ post →
      runTabs cd pre = .ok (cdp, emp) →
      ∀ k, cdp.tabs_pending = some k → 0 ≤ k) ∧
    (reqs = [] → em0 = [cd]) := by
  obtain ⟨hb, ht, hp, he⟩ := parse_college_page_ok meta_cd resp cd reqs em0 hpc
  have hlen_arr : arr.length = reqs.length := by
    have h := harr.length_eq
    simpa using h
  refine ⟨?_, ?_, ?_⟩
  · intro cd2 em hrun
    by_cases hz : reqs.length = 0
    · have harr0 : arr = [] := by
        have : arr.length = 0 := by omega
        exact List.length_eq_zero.mp this
      subst harr0
      simp only [runTabs] at hrun
      cases hrun
      simp [he, hz]
    · have hsle : ((successes arr).length : Int) ≤ (reqs.length : Int) := by
        have h1 := successes_length_le arr
        omega
      by_cases hslt : ((successes arr).length : Int) < (reqs.length : Int)
      · have heq := runTabs_lt arr cd [] (reqs.length : Int) ht hp hslt
        rw [heq] at hrun
        cases hrun
        simp [he, hz]
      · have hseq : ((successes arr).length : Int) = (reqs.length : Int) := by
          omega
        have hpos : (0 : Int) < (reqs.length : Int) := by
          omega
        have heq := runTabs_eq1 arr cd [] (reqs.length : Int) ht hp hpos hseq
        rw [heq] at hrun
        cases hrun
        simp [he, hz]
  · intro pre post cdp emp hsplit hrun k hk
    have hle_pre : ((successes pre).length : Int) ≤ (reqs.length : Int) := by
      have h1 : (successes pre).length ≤ (successes arr).length := by
        rw [hsplit, successes_append]
        simp
      have h2 := successes_length_le arr
      omega
    by_cases hslt : ((successes pre).length : Int) < (reqs.length : Int)
    · have heq := runTabs_lt pre cd [] (reqs.length : Int) ht hp hslt
      rw [heq] at hrun
      cases hrun
      simp only at hk
      cases hk
      omega
    · have hseq : ((successes pre).length : Int) = (reqs.length : Int) := by
        omega
      by_cases hz : reqs.length = 0
      · have hzs : successes pre = [] := by
          have : (successes pre).length = 0 := by omega
          exact List.length_eq_zero.mp this
        have heq := runTabs_zero pre cd hzs
        rw [heq] at hrun
        cases hrun
        rw [hp] at hk
        cases hk
        simp [hz]
      · have hpos : (0 : Int) < (reqs.length : Int) := by omega
        have heq := runTabs_eq1 pre cd [] (reqs.length : Int) ht hp hpos hseq
        rw [heq] at hrun
        cases hrun
        simp only at hk
        cases hk
  · intro h0
    subst h0
    simpa using he

/-- Witness for C2 at a concrete one-tab detail page with one successful
arrival. -/
theorem claim_C2_witness :
    (∀ cd2 em, runTabs c2_cd c2_arr = .ok (cd2, em) →
      ([] : List CollegeData).length + em.length ≤ 1) ∧
    (∀ pre post cdp emp, c2_arr = pre ++ post →
      runTabs c2_cd pre = .ok (cdp, emp) →
      ∀ k, cdp.tabs_pending = some k → 0 ≤ k) ∧
    ([c2_req] = [] → ([] : List CollegeData) = [c2_cd]) :=
  claim_C2 c2_meta c2_resp c2_cd [c2_req] [] rfl c2_arr (by decide)

/-- C7: for an item whose detail page yields exactly three tab requests
(with distinct derived tab keys), delivering the three tab responses in
any arrival order produces exactly one emitted record, that record holds
all three sections under their keys, and — as a Python record, i.e. up to
dict equality — it is the same in every arrival order. -/
theorem claim_C7 (meta_cd : List (String × PyVal)) (resp : DetailResponse)
    (cd : CollegeData) (r1 r2 r3 : TabRequest) (em0 : List CollegeData)
    (t1 t2 t3 : TabResponse)
    (hpc : parse_college_page meta_cd resp = .ok (cd, [r1, r2, r3], em0))
    (hkeys : ([r1, r2, r3].map (fun x => tabKey x.tab_title)).Nodup)
    (arr : List (TabRequest × TabOutcome))
    (harr : List.Perm arr
      [(r1, TabOutcome.success t1), (r2, TabOutcome.success t2),
       (r3, TabOutcome.success t3)]) :
    em0 = [] ∧
    runTabs cd arr = .ok (emittedOf cd arr, [emittedOf cd arr]) ∧
    dictLookup (tabKey r1.tab_title) (applyTabs [] (successes arr)) =
      some (mkTabData r1.tab_title t1) ∧
    dictLookup (tabKey r2.tab_title) (applyTabs [] (successes arr)) =
      some (mkTabData r2.tab_title t2) ∧
    dictLookup (tabKey r3.tab_title) (applyTabs [] (successes arr)) =
      some (mkTabData r3.tab_title t3) ∧
    RecordEq (emittedOf cd arr)
      (emittedOf cd [(r1, TabOutcome.success t1), (r2, TabOutcome.success t2),
        (r3, TabOutcome.success t3)]) := by
  obtain ⟨hb, ht, hp, he⟩ :=
    parse_college_page_ok meta_cd resp cd [r1, r2, r3] em0 hpc
  have hsucc : List.Perm (successes arr) [(r1, t1), (r2, t2), (r3, t3)] := by
    rw [successes_eq_filterMap]
    exact harr.filterMap (fun x =>
      match x.2 with
      | TabOutcome.success resp => some (x.1, resp)
      | TabOutcome.giveUp => Option.none)
  have hslen : ((successes arr).length : Int) = 3 := by
    have h := hsucc.length_eq
    simp at h
    omega
  have hp3 : cd.tabs_pending = some 3 := by simpa using hp
  have hrun := runTabs_eq1 arr cd [] 3 ht hp3 (by norm_num) hslen
  have hnodc : ([((r1, t1) : TabRequest × TabResponse), (r2, t2),
      (r3, t3)].map (fun x => tabKey x.1.tab_title)).Nodup := by
    simpa using hkeys
  have hnoda : ((successes arr).map (fun x => tabKey x.1.tab_title)).Nodup :=
    ((hsucc.symm.map (fun x => tabKey x.1.tab_title))).nodup hnodc
  have hdict := applyTabs_perm hsucc [] hnoda
  simp only [List.map_cons, List.map_nil, List.nodup_cons, List.mem_cons,
    List.mem_singleton, List.not_mem_nil] at hkeys
  have h12 : ¬tabKey r1.tab_title = tabKey r2.tab_title := fun h =>
    hkeys.1 (Or.inl h)
  have h13 : ¬tabKey r1.tab_title = tabKey r3.tab_title := fun h =>
    hkeys.1 (Or.inr (Or.inl h))
  have h23 : ¬tabKey r2.tab_title = tabKey r3.tab_title := fun h =>
    hkeys.2.1 (Or.inl h)
  refine ⟨by simpa using he, hrun, ?_, ?_, ?_, ⟨rfl, rfl, hdict⟩⟩
  · rw [hdict (tabKey r1.tab_title)]
    show dictLookup (tabKey r1.tab_title)
      (dictSet (dictSet (dictSet [] (tabKey r1.tab_title)
        (mkTabData r1.tab_title t1)) (tabKey r2.tab_title)
        (mkTabData r2.tab_title t2)) (tabKey r3.tab_title)
        (mkTabData r3.tab_title t3)) = some (mkTabData r1.tab_title t1)
    rw [dictLookup_dictSet_ne _ _ _ _ (Ne.symm h13),
      dictLookup_dictSet_ne _ _ _ _ (Ne.symm h12),
      dictLookup_dictSet_self]
  · rw [hdict (tabKey r2.tab_title)]
    show dictLookup (tabKey r2.tab_title)
      (dictSet (dictSet (dictSet [] (tabKey r1.tab_title)
        (mkTabData r1.tab_title t1)) (tabKey r2.tab_title)
        (mkTabData r2.tab_title t2)) (tabKey r3.tab_title)
        (mkTabData r3.tab_title t3)) = some (mkTabData r2.tab_title t2)
    rw [dictLookup_dictSet_ne _ _ _ _ (Ne.symm h23),
      dictLookup_dictSet_self]
  · rw [hdict (tabKey r3.tab_title)]
    show dictLookup (tabKey r3.tab_title)
      (dictSet (dictSet (dictSet [] (tabKey r1.tab_title)
        (mkTabData r1.tab_title t1)) (tabKey r2.tab_title)
        (mkTabData r2.tab_title t2)) (tabKey r3.tab_title)
        (mkTabData r3.tab_title t3)) = some (mkTabData r3.tab_title t3)
    rw [dictLookup_dictSet_self]

/-- Witness for C7 at a concrete three-tab detail page with a
non-discovery arrival order. -/
theorem claim_C7_witness :
    ([] : List CollegeData) = [] ∧
    runTabs c7_cd c7_arr =
      .ok (emittedOf c7_cd c7_arr, [emittedOf c7_cd c7_arr]) ∧
    dictLookup (tabKey c7_r1.tab_title) (applyTabs [] (successes c7_arr)) =
      some (mkTabData c7_r1.tab_title c7_t1) ∧
    dictLookup (tabKey c7_r2.tab_title) (applyTabs [] (successes c7_arr)) =
      some (mkTabData c7_r2.tab_title c7_t2) ∧
    dictLookup (tabKey c7_r3.tab_title) (applyTabs [] (successes c7_arr)) =
      some (mkTabData c7_r3.tab_title c7_t3) ∧
    RecordEq (emittedOf c7_cd c7_arr)
      (emittedOf c7_cd [(c7_r1, TabOutcome.success c7_t1),
        (c7_r2, TabOutcome.success c7_t2),
        (c7_r3, TabOutcome.success c7_t3)]) :=
  claim_C7 c7_meta c7_resp c7_cd c7_r1 c7_r2 c7_r3 [] c7_t1 c7_t2 c7_t3
    rfl (by decide) c7_arr (by decide)

end Scraping
